import Mathlib

/-!
Shallow embedding of `src/image_generator/server.py` (MCP image-generation
gateway) and verification of its specification claims.

Modelling conventions:
* Tool arguments arrive as a Python dict (or `None`); we model a dict of
  string-valued arguments as an association list `ArgDict`.  The numeric
  arguments of `generate-image` (`width`, `height`, `num_inference_steps`,
  `guidance_scale`) only feed the opaque remote call and are subsumed by the
  remote-call oracle.
* Python truthiness tests (`if not prompt`, `if not arguments`,
  `if target_directory:`) are modelled by `pyFalsy` / `pyFalsyDict`:
  `None` and the empty string / empty dict are falsy.
* The Python dict `images` (insertion-ordered, unique keys) is an association
  list `ImagesTable`; `images[k] = v` is `dictInsert`.
* Filesystem paths are abstract strings; `Path(d) / f` is `d ++ "/" ++ f` and
  `Path.absolute` is the identity (paths are treated as already-absolute
  identifiers; no claim depends on cwd resolution).  The filesystem contents
  visible to `exists()`/reads are an association list `FS` from path to bytes.
* External effects (uuid generation, clock, `mkdir`, HTTP download, `open`,
  the Replicate call) are an oracle `Env` supplied to the handler; the handler
  reports its state and effect trace in `CallResult`.
* A Python handler either returns a value or raises; we embed it as `Except`:
  `.error` is an uncaught raise (protocol-level error), `.ok` a normal reply.
-/

namespace ImageGen

/-- Python truthiness of an optional string: `None` and `""` are falsy. -/
def pyFalsy : Option String → Bool
  | none => true
  | some s => s.isEmpty

/-- A Python dict of string-valued tool arguments. -/
abbrev ArgDict := List (String × String)

/-- Python dict lookup on an association list (keys are unique in a dict, so
first match is the match). -/
def dLookup {β : Type} (t : List (String × β)) (k : String) : Option β :=
  match t with
  | [] => none
  | (a, b) :: rest => if a = k then some b else dLookup rest k

/-- `arguments.get(key)`. -/
def dGet (d : ArgDict) (k : String) : Option String :=
  dLookup d k

/-- Python truthiness of `arguments : dict | None`. -/
def pyFalsyDict : Option ArgDict → Bool
  | none => true
  | some d => d.isEmpty

/-- `IMAGES_DIR = Path("generated_images")` (module line 30). -/
def IMAGES_DIR : String := "generated_images"

/-- `Path(d) / f`. -/
def pathJoin (d f : String) : String := d ++ "/" ++ f

/-- The metadata dict built by `save-image` (server.py line 283, plus the
`custom_directory` / `custom_filename` keys optionally added at lines 304
and 312). -/
structure ImageRecord where
  id : String
  prompt : String
  url : String
  created_at : String
  custom_directory : Option String
  custom_filename : Option String
deriving Repr, DecidableEq

/-- The module-level `images: Dict[str, Dict]` table, insertion-ordered. -/
abbrev ImagesTable := List (String × ImageRecord)

/-- `images[k] = v` on a Python dict: replace in place if the key exists,
otherwise append. -/
def dictInsert (t : ImagesTable) (k : String) (v : ImageRecord) : ImagesTable :=
  match t with
  | [] => [(k, v)]
  | (k', v') :: rest =>
      if k' = k then (k, v) :: rest else (k', v') :: dictInsert rest k v

/-- The filesystem contents visible to the handlers: path ↦ file bytes. -/
abbrev FS := List (String × List Nat)

/-- Read a file's bytes, `none` when the path does not exist. -/
def FS.read (fs : FS) (p : String) : Option (List Nat) :=
  dLookup fs p

/-- `Path.exists()`. -/
def FS.pathExists (fs : FS) (p : String) : Bool :=
  (FS.read fs p).isSome

/-- One element of a handler's reply list: `types.TextContent` (text and
optional role) or `types.ImageContent` (data and mimeType). -/
inductive Content where
  | text : String → Option String → Content
  | image : String → String → Content
deriving Repr, DecidableEq

/-- The two `ValueError` shapes raised by `handle_read_resource`:
`"Unsupported URI scheme: …"` (line 61) and `"Image not found: …"`
(line 72, whose interpolated id may be Python `None`). -/
inductive ReadError where
  | unsupportedScheme : String → ReadError
  | notFound : Option String → ReadError
deriving Repr, DecidableEq

/-- The pieces of a parsed `AnyUrl` that `handle_read_resource` inspects. -/
structure Uri where
  scheme : String
  path : Option String
deriving Repr, DecidableEq

/-- `image_id.lstrip("/")`: drop every leading `'/'` character. -/
def lstripSlash (s : String) : String :=
  String.mk (s.data.dropWhile (· = '/'))

/-- `handle_read_resource` (server.py lines 54–72). -/
def handle_read_resource (uri : Uri) (images : ImagesTable) (fs : FS) :
    Except ReadError (List Nat) :=
  if uri.scheme ≠ "image" then
    .error (.unsupportedScheme uri.scheme)
  else
    match uri.path with
    | some p =>
        let image_id := lstripSlash p
        if (dLookup images image_id).isSome then
          let image_path := pathJoin IMAGES_DIR (image_id ++ ".png")
          match FS.read fs image_path with
          | some bytes => .ok bytes
          | none => .error (.notFound (some image_id))
        else
          .error (.notFound (some image_id))
    | none => .error (.notFound none)

/-- A `types.PromptMessage` with `TextContent`. -/
structure PromptMessage where
  role : String
  text : String
deriving Repr, DecidableEq

/-- A `types.GetPromptResult`. -/
structure GetPromptResult where
  description : String
  messages : List PromptMessage
deriving Repr, DecidableEq

/-- The `style_prompt` if/elif chain of `handle_get_prompt`
(server.py lines 104–111): unrecognized styles keep the initial `""`. -/
def stylePrompt (style : String) : String :=
  if style = "realistic" then
    "Create a photorealistic image with high detail and natural lighting."
  else if style = "artistic" then
    "Create an artistic image in the style of a painting with vibrant colors and expressive brushstrokes."
  else if style = "abstract" then
    "Create an abstract image with geometric shapes, bold colors, and non-representational forms."
  else ""

/-- `handle_get_prompt` (server.py lines 93–124). -/
def handle_get_prompt (name : String) (arguments : Option ArgDict) :
    Except String GetPromptResult :=
  if name ≠ "generate-image" then
    .error ("Unknown prompt: " ++ name)
  else
    let style := (dGet (arguments.getD []) "style").getD "realistic"
    .ok { description := "Generate an image using Stable Diffusion"
          messages :=
            [{ role := "user"
               text := "Describe the image you want to generate. " ++ stylePrompt style }] }

/-- Outcome of `replicate.run` (server.py line 199): either it raises, or it
returns a list of image URLs (the non-list / falsy cases the code tests at
line 216 collapse to the empty list). -/
inductive ReplicateResult where
  | raise : String → ReplicateResult
  | output : List String → ReplicateResult
deriving Repr, DecidableEq

/-- Outcome of `requests.get(image_url)` (server.py line 319): either it
raises, or it returns a response with a status code and body bytes. -/
inductive DownloadResult where
  | raise : String → DownloadResult
  | response : Nat → List Nat → DownloadResult
deriving Repr, DecidableEq

/-- Oracle for the external effects a `handle_call_tool` invocation may
perform: the Replicate call, the generated `uuid4`, the clock, whether
`mkdir` on the custom directory succeeds, the HTTP download, and whether
`open(image_path, "wb")` succeeds (`none`) or raises (`some message`). -/
structure Env where
  replicate : ReplicateResult
  freshId : String
  now : String
  mkdirOk : Bool
  download : DownloadResult
  openErr : Option String
deriving Repr, DecidableEq

/-- Result of one `handle_call_tool` invocation: the reply (or uncaught
raise), the metadata table afterward, and the effect trace — whether the
remote inference call was invoked, whether the HTTP download was attempted,
the path at which a file write was attempted, and the successful write
(path and bytes) if any. -/
structure CallResult where
  result : Except String (List Content)
  images : ImagesTable
  remoteInvoked : Bool
  downloadAttempted : Bool
  writeAttempt : Option String
  written : Option (String × List Nat)
deriving Repr

/-- The `generate-image` branch of `handle_call_tool`
(server.py lines 179–260). -/
def generateImage (arguments : Option ArgDict) (images : ImagesTable)
    (env : Env) : CallResult :=
  if pyFalsyDict arguments then
    ⟨.error "Missing arguments", images, false, false, none, none⟩
  else
    let args := arguments.getD []
    let prompt := dGet args "prompt"
    if pyFalsy prompt then
      ⟨.error "Missing prompt", images, false, false, none, none⟩
    else
      -- negative_prompt/width/height/steps/guidance are read here and feed
      -- only the remote call, which the oracle answers.
      match env.replicate with
      | .raise msg =>
          ⟨.ok [.text ("Error generating image: " ++ msg) none],
           images, true, false, none, none⟩
      | .output [] =>
          ⟨.ok [.text "Failed to generate image. Please try again with a different prompt." none],
           images, true, false, none, none⟩
      | .output (url :: _) =>
          ⟨.ok [.text "Image generated successfully! Use the save-image tool to save it permanently." none,
                .image url "image/png",
                .text ("Image URL: " ++ url) none,
                .text "ASK_FOR_SAVE_LOCATION" (some "system")],
           images, true, false, none, none⟩

/-- The directory `save-image` resolves and then writes into
(server.py lines 294–307).

Faithful to a subtlety of the source: inside `if target_directory:` the
assignment `save_dir = Path(target_directory)` (line 299) happens *before*
`save_dir.mkdir(...)` (line 301) can raise, so when `mkdir` fails the
caught exception leaves `save_dir` equal to the custom directory — only the
`custom_directory` metadata key is skipped — and the later write still
targets the custom directory. -/
def saveDir (target_directory : Option String) : String :=
  if pyFalsy target_directory then IMAGES_DIR
  else target_directory.getD ""

/-- The filename resolution of `save-image` (server.py lines 310–314). -/
def saveFilename (custom_filename : Option String) (image_id : String) : String :=
  if pyFalsy custom_filename then image_id ++ ".png"
  else custom_filename.getD "" ++ ".png"

/-- The metadata record `save-image` stores at line 291, including the
`custom_directory` key added only when the custom directory's `mkdir`
succeeded (line 304) and the `custom_filename` key added when a custom
filename was supplied (line 312). -/
def saveMetadata (image_url prompt target_directory custom_filename : Option String)
    (env : Env) : ImageRecord where
  id := env.freshId
  prompt := prompt.getD ""
  url := image_url.getD ""
  created_at := env.now
  custom_directory :=
    if !pyFalsy target_directory && env.mkdirOk then
      some (target_directory.getD "")
    else none
  custom_filename :=
    if pyFalsy custom_filename then none else custom_filename

/-- The `save-image` branch of `handle_call_tool`
(server.py lines 262–360). -/
def saveImage (arguments : Option ArgDict) (images : ImagesTable)
    (env : Env) : CallResult :=
  if pyFalsyDict arguments then
    ⟨.error "Missing arguments", images, false, false, none, none⟩
  else
    let args := arguments.getD []
    let image_url := dGet args "image_url"
    let prompt := dGet args "prompt"
    let target_directory := dGet args "target_directory"
    let custom_filename := dGet args "custom_filename"
    if pyFalsy image_url || pyFalsy prompt then
      ⟨.error "Missing image_url or prompt", images, false, false, none, none⟩
    else
      let image_id := env.freshId
      let save_dir := saveDir target_directory
      let filename := saveFilename custom_filename image_id
      -- `images[image_id] = metadata` happens at line 291, before the
      -- download; the later metadata mutations alias the stored dict, so the
      -- stored record carries the final field values.
      let metadata := saveMetadata image_url prompt target_directory
        custom_filename env
      let images1 := dictInsert images image_id metadata
      match env.download with
      | .raise msg =>
          ⟨.ok [.text ("Error saving image: " ++ msg) none],
           images1, false, true, none, none⟩
      | .response status content =>
          if status = 200 then
            let image_path := pathJoin save_dir filename
            match env.openErr with
            | none =>
                ⟨.ok [.text ("Image saved successfully to " ++ image_path) none,
                      .image ("file://" ++ image_path) "image/png"],
                 images1, false, true, some image_path, some (image_path, content)⟩
            | some msg =>
                ⟨.ok [.text ("Error saving image: " ++ msg) none],
                 images1, false, true, some image_path, none⟩
          else
            ⟨.ok [.text ("Failed to download image. Status code: " ++ toString status) none],
             images1, false, true, none, none⟩

/-- The file path `list-saved-images` recomputes for one record
(server.py lines 383–394). -/
def recordPath (image_id : String) (m : ImageRecord) : String :=
  let save_dir := m.custom_directory.getD IMAGES_DIR
  let filename :=
    match m.custom_filename with
    | some f => f ++ ".png"
    | none => image_id ++ ".png"
  pathJoin save_dir filename

/-- The per-record output of `list-saved-images` (server.py lines 397–419):
a text entry plus embedded image content when the file exists, a
warning-annotated text entry otherwise. -/
def listEntry (fs : FS) (image_id : String) (m : ImageRecord) : List Content :=
  let image_path := recordPath image_id m
  if FS.pathExists fs image_path then
    [.text ("ID: " ++ image_id ++ "\nPrompt: " ++ m.prompt ++ "\nCreated: "
            ++ m.created_at ++ "\nLocation: " ++ image_path) none,
     .image ("file://" ++ image_path) "image/png"]
  else
    [.text ("ID: " ++ image_id ++ "\nPrompt: " ++ m.prompt ++ "\nCreated: "
            ++ m.created_at ++ "\nWARNING: Image file not found at " ++ image_path) none]

/-- The `list-saved-images` branch of `handle_call_tool`
(server.py lines 362–432). -/
def listSavedImages (images : ImagesTable) (fs : FS) : CallResult :=
  if images.isEmpty then
    ⟨.ok [.text "No images have been saved yet." none],
     images, false, false, none, none⟩
  else
    ⟨.ok (.text ("Found " ++ toString images.length ++ " saved images:") none
          :: (images.map (fun p => listEntry fs p.1 p.2)).flatten),
     images, false, false, none, none⟩

/-- `handle_call_tool` (server.py lines 172–435): dispatch on the tool
name. -/
def handle_call_tool (name : String) (arguments : Option ArgDict)
    (images : ImagesTable) (fs : FS) (env : Env) : CallResult :=
  if name = "generate-image" then generateImage arguments images env
  else if name = "save-image" then saveImage arguments images env
  else if name = "list-saved-images" then listSavedImages images fs
  else ⟨.error ("Unknown tool: " ++ name), images, false, false, none, none⟩

/-! ### Helper lemmas -/

theorem handle_call_tool_generate (arguments : Option ArgDict) (images : ImagesTable)
    (fs : FS) (env : Env) :
    handle_call_tool "generate-image" arguments images fs env
      = generateImage arguments images env := rfl

theorem handle_call_tool_save (arguments : Option ArgDict) (images : ImagesTable)
    (fs : FS) (env : Env) :
    handle_call_tool "save-image" arguments images fs env
      = saveImage arguments images env := rfl

theorem handle_call_tool_list (arguments : Option ArgDict) (images : ImagesTable)
    (fs : FS) (env : Env) :
    handle_call_tool "list-saved-images" arguments images fs env
      = listSavedImages images fs := rfl

theorem dictInsert_lookup_self (t : ImagesTable) (k : String) (v : ImageRecord) :
    dLookup (dictInsert t k v) k = some v := by
  induction t with
  | nil => simp [dictInsert, dLookup]
  | cons hd tl ih =>
      obtain ⟨k', v'⟩ := hd
      by_cases h : k' = k
      · simp [dictInsert, h, dLookup]
      · simp [dictInsert, h, dLookup, ih]

theorem dictInsert_lookup_ne (t : ImagesTable) (k : String) (v : ImageRecord)
    (k' : String) (h : k ≠ k') :
    dLookup (dictInsert t k v) k' = dLookup t k' := by
  induction t with
  | nil => simp [dictInsert, dLookup, h]
  | cons hd tl ih =>
      obtain ⟨a, b⟩ := hd
      by_cases ha : a = k
      · subst ha
        simp [dictInsert, dLookup, h]
      · by_cases hk : a = k'
        · simp [dictInsert, dLookup, ha, hk, Ne.symm h]
        · simp [dictInsert, dLookup, ha, hk, ih]

theorem dictInsert_length_fresh (t : ImagesTable) (k : String) (v : ImageRecord)
    (h : dLookup t k = none) :
    (dictInsert t k v).length = t.length + 1 := by
  induction t with
  | nil => simp [dictInsert]
  | cons hd tl ih =>
      obtain ⟨a, b⟩ := hd
      by_cases ha : a = k
      · simp [dLookup, ha] at h
      · simp only [dLookup, if_neg ha] at h
        simp [dictInsert, ha, List.length_cons, ih h]

theorem dGet_some_not_isEmpty (args : ArgDict) (k v : String)
    (h : dGet args k = some v) : args.isEmpty = false := by
  cases args with
  | nil => simp [dGet, dLookup] at h
  | cons hd tl => simp

theorem pyFalsyDict_of_get (args : ArgDict) (k : String)
    (h : pyFalsy (dGet args k) = false) : pyFalsyDict (some args) = false := by
  cases hargs : dGet args k with
  | none => rw [hargs] at h; simp [pyFalsy] at h
  | some v => exact dGet_some_not_isEmpty args k v hargs

/-- For well-formed save arguments, the table after `save-image` is exactly the
old table with one record inserted at the fresh id, whatever the download
outcome. -/
theorem saveImage_images_eq (arguments : ArgDict) (images : ImagesTable) (env : Env)
    (hurl : pyFalsy (dGet arguments "image_url") = false)
    (hprompt : pyFalsy (dGet arguments "prompt") = false) :
    (saveImage (some arguments) images env).images
      = dictInsert images env.freshId
          (saveMetadata (dGet arguments "image_url") (dGet arguments "prompt")
            (dGet arguments "target_directory") (dGet arguments "custom_filename")
            env) := by
  have hargs : pyFalsyDict (some arguments) = false := pyFalsyDict_of_get _ _ hprompt
  rcases env with ⟨rep, fid, now, mk, dl, oe⟩
  cases dl with
  | raise msg =>
      simp [saveImage, hargs, hurl, hprompt]
  | response status content =>
      by_cases hs : status = 200
      · cases oe with
        | none => simp [saveImage, hargs, hurl, hprompt, hs]
        | some msg => simp [saveImage, hargs, hurl, hprompt, hs]
      · simp [saveImage, hargs, hurl, hprompt, hs]

/-! ### Claims -/

/-- **C2.** For every save-image call with a non-empty `image_url` and
non-empty `prompt`, exactly one new record is inserted, keyed by the fresh
previously-unused id, and — the insertion happening before the download — the
record is present afterward for every download outcome (success, non-200
status, or a raised exception), with all other keys untouched. -/
theorem save_image_inserts_exactly_one_fresh_record (arguments : ArgDict)
    (images : ImagesTable) (fs : FS) (env : Env)
    (hurl : pyFalsy (dGet arguments "image_url") = false)
    (hprompt : pyFalsy (dGet arguments "prompt") = false)
    (hfresh : dLookup images env.freshId = none) :
    ((dLookup (handle_call_tool "save-image" (some arguments) images fs env).images
        env.freshId).isSome = true) ∧
    (handle_call_tool "save-image" (some arguments) images fs env).images.length
        = images.length + 1 ∧
    ∀ k, env.freshId ≠ k →
      dLookup (handle_call_tool "save-image" (some arguments) images fs env).images k
        = dLookup images k := by
  rw [handle_call_tool_save, saveImage_images_eq arguments images env hurl hprompt]
  refine ⟨?_, ?_, ?_⟩
  · rw [dictInsert_lookup_self]; rfl
  · exact dictInsert_length_fresh images env.freshId _ hfresh
  · intro k hk
    exact dictInsert_lookup_ne images env.freshId _ k hk

/-- Witness for C2 at a concrete call. -/
theorem save_image_inserts_exactly_one_fresh_record_witness :
    (dLookup (handle_call_tool "save-image"
        (some [("image_url", "http://img/1.png"), ("prompt", "a cat")])
        [] [] ⟨.output [], "id0", "t0", true, .raise "timeout", none⟩).images
        "id0").isSome = true := by
  exact (save_image_inserts_exactly_one_fresh_record
    [("image_url", "http://img/1.png"), ("prompt", "a cat")] [] []
    ⟨.output [], "id0", "t0", true, .raise "timeout", none⟩
    (by decide) (by decide) (by decide)).1

/-- The concrete environment of the C1 failing scenario: `mkdir` on the
custom target directory raises (e.g. permission denied), the download
succeeds with status 200, and the subsequent `open` in the never-created
directory raises. -/
def c1Env : Env :=
  ⟨.output [], "id0", "t0", false, .response 200 [1, 2, 3],
   some "No such file or directory"⟩

/-- The arguments of the C1 failing scenario. -/
def c1Args : ArgDict :=
  [("image_url", "http://img/1.png"), ("prompt", "a cat"),
   ("target_directory", "/tmp/out")]

/-- **C1 (code bug).** When the supplied `target_directory` cannot be created,
the handler does *not* fall back to the default images directory:
`save_dir = Path(target_directory)` was already assigned before `mkdir`
raised, so the write is attempted at `/tmp/out/id0.png` — not at
`generated_images/id0.png` — nothing is written, and the call returns an
"Error saving image" text instead of a success: the image is lost. -/
theorem save_image_mkdir_failure_does_not_fall_back :
    (handle_call_tool "save-image" (some c1Args) [] [] c1Env).writeAttempt
        = some "/tmp/out/id0.png" ∧
    (handle_call_tool "save-image" (some c1Args) [] [] c1Env).writeAttempt
        ≠ some (pathJoin IMAGES_DIR "id0.png") ∧
    (handle_call_tool "save-image" (some c1Args) [] [] c1Env).written = none ∧
    (handle_call_tool "save-image" (some c1Args) [] [] c1Env).result
        = .ok [.text "Error saving image: No such file or directory" none] := by
  refine ⟨rfl, ?_, rfl, rfl⟩
  decide

/-- **C3.** `read-resource` trichotomy: a URI whose scheme is not `image`
fails with the invalid-argument (`unsupportedScheme`) error; with the `image`
scheme, an id absent from the metadata table, or whose file
`generated_images/<id>.png` is absent, fails with the not-found error; and
when the id is known and the file present, the raw file bytes are
returned. -/
theorem read_resource_trichotomy (images : ImagesTable) (fs : FS) :
    (∀ uri : Uri, uri.scheme ≠ "image" →
        handle_read_resource uri images fs
          = .error (.unsupportedScheme uri.scheme)) ∧
    (∀ p : String, dLookup images (lstripSlash p) = none →
        handle_read_resource ⟨"image", some p⟩ images fs
          = .error (.notFound (some (lstripSlash p)))) ∧
    (∀ p : String,
        FS.read fs (pathJoin IMAGES_DIR (lstripSlash p ++ ".png")) = none →
        handle_read_resource ⟨"image", some p⟩ images fs
          = .error (.notFound (some (lstripSlash p)))) ∧
    (∀ (p : String) (bytes : List Nat),
        (dLookup images (lstripSlash p)).isSome = true →
        FS.read fs (pathJoin IMAGES_DIR (lstripSlash p ++ ".png")) = some bytes →
        handle_read_resource ⟨"image", some p⟩ images fs = .ok bytes) := by
  refine ⟨?_, ?_, ?_, ?_⟩
  · intro uri h
    simp [handle_read_resource, h]
  · intro p h
    simp [handle_read_resource, h]
  · intro p h
    by_cases hm : (dLookup images (lstripSlash p)).isSome
    · simp [handle_read_resource, hm, h]
    · simp [handle_read_resource, hm]
  · intro p bytes hm hf
    simp [handle_read_resource, hm, hf]

/-- Witness for C3: each of the three outcomes at a concrete call. -/
theorem read_resource_trichotomy_witness :
    handle_read_resource ⟨"http", some "/abc"⟩ [] []
        = .error (.unsupportedScheme "http") ∧
    handle_read_resource ⟨"image", some "/abc"⟩ [] []
        = .error (.notFound (some "abc")) ∧
    handle_read_resource ⟨"image", some "/abc"⟩
        [("abc", ⟨"abc", "p", "u", "t", none, none⟩)] []
        = .error (.notFound (some "abc")) ∧
    handle_read_resource ⟨"image", some "/abc"⟩
        [("abc", ⟨"abc", "p", "u", "t", none, none⟩)]
        [("generated_images/abc.png", [9, 9])] = .ok [9, 9] := by
  refine ⟨(read_resource_trichotomy [] []).1 ⟨"http", some "/abc"⟩ (by decide),
    (read_resource_trichotomy [] []).2.1 "/abc" (by decide),
    (read_resource_trichotomy
      [("abc", ⟨"abc", "p", "u", "t", none, none⟩)] []).2.2.1 "/abc" (by decide),
    (read_resource_trichotomy [("abc", ⟨"abc", "p", "u", "t", none, none⟩)]
      [("generated_images/abc.png", [9, 9])]).2.2.2 "/abc" [9, 9]
      (by decide) (by decide)⟩

/-- **C4.** `read-resource` always looks at
`generated_images/<id>.png`, ignoring the record's `custom_directory` /
`custom_filename` fields, so for any record saved with a custom directory
or a custom filename (or both) it raises not-found even though the file
exists exactly where the metadata records it — while `list-saved-images`
(via `recordPath` / `listEntry`) recomputes the path from those same custom
fields and reports the record as present with embedded image content. -/
theorem read_resource_ignores_custom_location (image_id p : String)
    (m : ImageRecord) (images : ImagesTable) (fs : FS) (bytes : List Nat)
    (hid : lstripSlash p = image_id)
    (hin : dLookup images image_id = some m)
    (_hcustom : m.custom_directory ≠ none ∨ m.custom_filename ≠ none)
    (hfile : FS.read fs (recordPath image_id m) = some bytes)
    (hdefault : FS.read fs (pathJoin IMAGES_DIR (image_id ++ ".png")) = none) :
    handle_read_resource ⟨"image", some p⟩ images fs
        = .error (.notFound (some image_id)) ∧
    recordPath image_id m
        = pathJoin (m.custom_directory.getD IMAGES_DIR)
            (match m.custom_filename with
             | some f => f ++ ".png"
             | none => image_id ++ ".png") ∧
    listEntry fs image_id m
        = [Content.text ("ID: " ++ image_id ++ "\nPrompt: " ++ m.prompt
              ++ "\nCreated: " ++ m.created_at ++ "\nLocation: "
              ++ recordPath image_id m) none,
           Content.image ("file://" ++ recordPath image_id m) "image/png"] := by
  refine ⟨?_, ?_, ?_⟩
  · simp [handle_read_resource, hid, hin, hdefault]
  · rfl
  · simp [listEntry, FS.pathExists, hfile]

/-- Witness for C4 at two concrete records: one saved with only a custom
filename (file at `generated_images/fox.png`, default probe
`generated_images/abc.png`), one saved with a custom directory
(file at `/d/fox.png`). -/
theorem read_resource_ignores_custom_location_witness :
    (handle_read_resource ⟨"image", some "/abc"⟩
        [("abc", ⟨"abc", "p", "u", "t", none, some "fox"⟩)]
        [("generated_images/fox.png", [9, 9])]
        = .error (.notFound (some "abc"))) ∧
    (handle_read_resource ⟨"image", some "/abc"⟩
        [("abc", ⟨"abc", "p", "u", "t", some "/d", some "fox"⟩)]
        [("/d/fox.png", [9, 9])]
        = .error (.notFound (some "abc"))) := by
  constructor
  · exact (read_resource_ignores_custom_location "abc" "/abc"
      ⟨"abc", "p", "u", "t", none, some "fox"⟩
      [("abc", ⟨"abc", "p", "u", "t", none, some "fox"⟩)]
      [("generated_images/fox.png", [9, 9])] [9, 9]
      (by decide) (by decide) (.inr (by decide)) (by decide) (by decide)).1
  · exact (read_resource_ignores_custom_location "abc" "/abc"
      ⟨"abc", "p", "u", "t", some "/d", some "fox"⟩
      [("abc", ⟨"abc", "p", "u", "t", some "/d", some "fox"⟩)]
      [("/d/fox.png", [9, 9])] [9, 9]
      (by decide) (by decide) (.inl (by decide)) (by decide) (by decide)).1

/-- **C5.** For a generate-image call with a non-empty prompt, an exception
raised by the remote inference call is caught and converted into an `.ok`
reply whose content is the textual error message — the handler does not
propagate the exception. -/
theorem generate_image_catches_remote_exception (arguments : ArgDict)
    (images : ImagesTable) (fs : FS) (env : Env) (msg : String)
    (hprompt : pyFalsy (dGet arguments "prompt") = false)
    (hraise : env.replicate = .raise msg) :
    (handle_call_tool "generate-image" (some arguments) images fs env).result
        = .ok [Content.text ("Error generating image: " ++ msg) none] := by
  have hargs : pyFalsyDict (some arguments) = false :=
    pyFalsyDict_of_get _ _ hprompt
  rw [handle_call_tool_generate]
  simp [generateImage, hargs, hprompt, hraise]

/-- Witness for C5 at a concrete call whose remote call raises. -/
theorem generate_image_catches_remote_exception_witness :
    (handle_call_tool "generate-image" (some [("prompt", "a fox")]) [] []
        ⟨.raise "boom", "id0", "t0", true, .raise "x", none⟩).result
      = .ok [Content.text "Error generating image: boom" none] := by
  exact generate_image_catches_remote_exception [("prompt", "a fox")] [] []
    ⟨.raise "boom", "id0", "t0", true, .raise "x", none⟩ "boom"
    (by decide) rfl

/-- **C6.** A generate-image call whose arguments carry no `prompt` key fails
with a validation error (an uncaught `ValueError`, i.e. `.error`), and the
remote inference call is never invoked. -/
theorem generate_image_missing_prompt_no_network (arguments : ArgDict)
    (images : ImagesTable) (fs : FS) (env : Env)
    (hmissing : dGet arguments "prompt" = none) :
    (∃ e, (handle_call_tool "generate-image" (some arguments) images fs env).result
        = .error e) ∧
    (handle_call_tool "generate-image" (some arguments) images fs env).remoteInvoked
        = false := by
  rw [handle_call_tool_generate]
  cases hargs : pyFalsyDict (some arguments) with
  | true => exact ⟨⟨"Missing arguments", by simp [generateImage, hargs]⟩,
      by simp [generateImage, hargs]⟩
  | false =>
      have hp : pyFalsy (dGet arguments "prompt") = true := by
        rw [hmissing]; rfl
      exact ⟨⟨"Missing prompt", by simp [generateImage, hargs, hp]⟩,
        by simp [generateImage, hargs, hp]⟩

/-- Witness for C6 at a concrete call with no prompt argument. -/
theorem generate_image_missing_prompt_no_network_witness :
    (handle_call_tool "generate-image" (some [("width", "768")]) [] []
        ⟨.output ["u"], "id0", "t0", true, .raise "x", none⟩).remoteInvoked
      = false := by
  exact (generate_image_missing_prompt_no_network [("width", "768")] [] []
    ⟨.output ["u"], "id0", "t0", true, .raise "x", none⟩ (by decide)).2

theorem generateImage_images (arguments : Option ArgDict) (images : ImagesTable)
    (env : Env) : (generateImage arguments images env).images = images := by
  unfold generateImage
  split
  · rfl
  · dsimp only
    split
    · rfl
    · rcases env with ⟨rep, fid, now, mk, dl, oe⟩
      rcases rep with msg | l
      · rfl
      · rcases l with _ | ⟨u, us⟩ <;> rfl

theorem listSavedImages_images (images : ImagesTable) (fs : FS) :
    (listSavedImages images fs).images = images := by
  unfold listSavedImages
  split <;> rfl

/-- **C7.** `list-saved-images` leaves the metadata table unchanged, its reply
is a normal `.ok` value that contains — for every known record — that record's
entry computed by `listEntry`, and `listEntry` recomputes the record's path
from its (possibly custom) directory/filename fields and yields either a
normal entry with embedded image content (file present) or a
warning-annotated text entry (file missing). -/
theorem list_saved_images_reports_every_record (images : ImagesTable)
    (fs : FS) (env : Env) :
    (handle_call_tool "list-saved-images" none images fs env).images = images ∧
    (∃ L, (handle_call_tool "list-saved-images" none images fs env).result = .ok L ∧
      ∀ image_id m, (image_id, m) ∈ images → (listEntry fs image_id m).Sublist L) ∧
    (∀ image_id m,
      (FS.pathExists fs (recordPath image_id m) = true →
        listEntry fs image_id m
          = [Content.text ("ID: " ++ image_id ++ "\nPrompt: " ++ m.prompt
                ++ "\nCreated: " ++ m.created_at ++ "\nLocation: "
                ++ recordPath image_id m) none,
             Content.image ("file://" ++ recordPath image_id m) "image/png"]) ∧
      (FS.pathExists fs (recordPath image_id m) = false →
        listEntry fs image_id m
          = [Content.text ("ID: " ++ image_id ++ "\nPrompt: " ++ m.prompt
                ++ "\nCreated: " ++ m.created_at
                ++ "\nWARNING: Image file not found at "
                ++ recordPath image_id m) none])) := by
  rw [handle_call_tool_list]
  refine ⟨listSavedImages_images images fs, ?_, ?_⟩
  · cases images with
    | nil =>
        refine ⟨_, rfl, ?_⟩
        intro image_id m h
        simp at h
    | cons hd tl =>
        refine ⟨_, rfl, ?_⟩
        intro image_id m h
        exact List.Sublist.cons _ (List.sublist_flatten_of_mem
          (List.mem_map_of_mem (fun p => listEntry fs p.1 p.2) h))
  · intro image_id m
    constructor
    · intro h; simp [listEntry, h]
    · intro h; simp [listEntry, h]

/-- Witness for C7: a two-record table, one file present and one deleted. -/
theorem list_saved_images_reports_every_record_witness :
    (handle_call_tool "list-saved-images" none
        [("abc", ⟨"abc", "p", "u", "t", some "/d", some "fox"⟩),
         ("z", ⟨"z", "q", "u2", "t2", none, none⟩)]
        [("/d/fox.png", [9, 9])]
        ⟨.output [], "id0", "t0", true, .raise "x", none⟩).images
      = [("abc", ⟨"abc", "p", "u", "t", some "/d", some "fox"⟩),
         ("z", ⟨"z", "q", "u2", "t2", none, none⟩)] := by
  exact (list_saved_images_reports_every_record
    [("abc", ⟨"abc", "p", "u", "t", some "/d", some "fox"⟩),
     ("z", ⟨"z", "q", "u2", "t2", none, none⟩)]
    [("/d/fox.png", [9, 9])]
    ⟨.output [], "id0", "t0", true, .raise "x", none⟩).1

/-- **C8.** `generate-image` never changes the metadata table — whatever its
arguments, remote outcome, or failure mode — and more generally no tool other
than `save-image` does: records are created only by `save-image`. -/
theorem generate_image_never_creates_records (name : String)
    (arguments : Option ArgDict) (images : ImagesTable) (fs : FS) (env : Env) :
    (handle_call_tool "generate-image" arguments images fs env).images = images ∧
    (name ≠ "save-image" →
      (handle_call_tool name arguments images fs env).images = images) := by
  constructor
  · rw [handle_call_tool_generate]
    exact generateImage_images arguments images env
  · intro h
    by_cases h1 : name = "generate-image"
    · subst h1
      rw [handle_call_tool_generate]
      exact generateImage_images arguments images env
    · by_cases h2 : name = "list-saved-images"
      · subst h2
        rw [handle_call_tool_list]
        exact listSavedImages_images images fs
      · unfold handle_call_tool
        rw [if_neg h1, if_neg h, if_neg h2]

/-- Witness for C8 at a concrete unknown tool name. -/
theorem generate_image_never_creates_records_witness :
    (handle_call_tool "delete-image" none
        [("abc", ⟨"abc", "p", "u", "t", none, none⟩)] []
        ⟨.output ["u"], "id0", "t0", true, .raise "x", none⟩).images
      = [("abc", ⟨"abc", "p", "u", "t", none, none⟩)] := by
  exact (generate_image_never_creates_records "delete-image" none
    [("abc", ⟨"abc", "p", "u", "t", none, none⟩)] []
    ⟨.output ["u"], "id0", "t0", true, .raise "x", none⟩).2 (by decide)

/-- **C9.** `get-prompt` with the recognized prompt name and an unrecognized
`style` value succeeds (returns `.ok`, it does not fail) and its message is
the fixed instruction text with the empty style hint appended. -/
theorem get_prompt_unknown_style_empty_hint (style : String) (arguments : ArgDict)
    (hstyle : dGet arguments "style" = some style)
    (h1 : style ≠ "realistic") (h2 : style ≠ "artistic") (h3 : style ≠ "abstract") :
    stylePrompt style = "" ∧
    handle_get_prompt "generate-image" (some arguments)
      = .ok ⟨"Generate an image using Stable Diffusion",
             [⟨"user", "Describe the image you want to generate. " ++ ""⟩]⟩ := by
  have hsp : stylePrompt style = "" := by
    unfold stylePrompt
    rw [if_neg h1, if_neg h2, if_neg h3]
  refine ⟨hsp, ?_⟩
  unfold handle_get_prompt
  rw [if_neg (by simp)]
  simp only [Option.getD_some, hstyle, hsp]

/-- Witness for C9 at the concrete unrecognized style `"cartoon"`. -/
theorem get_prompt_unknown_style_empty_hint_witness :
    handle_get_prompt "generate-image" (some [("style", "cartoon")])
      = .ok ⟨"Generate an image using Stable Diffusion",
             [⟨"user", "Describe the image you want to generate. " ++ ""⟩]⟩ := by
  exact (get_prompt_unknown_style_empty_hint "cartoon" [("style", "cartoon")]
    (by decide) (by decide) (by decide) (by decide)).2

/-- **C10.** Required-argument validation treats `""` like an absent
argument: generate-image with `prompt=""` fails with the `Missing prompt`
validation error; save-image with `image_url=""` or `prompt=""` fails with
the `Missing image_url or prompt` validation error; and a call with no
arguments object at all fails with `Missing arguments` — in every case
before any record is created, before any remote inference call, and before
any download or file write. -/
theorem empty_string_arguments_rejected (images : ImagesTable) (fs : FS)
    (env : Env) :
    (∀ arguments : ArgDict, dGet arguments "prompt" = some "" →
      (handle_call_tool "generate-image" (some arguments) images fs env).result
          = .error "Missing prompt" ∧
      (handle_call_tool "generate-image" (some arguments) images fs env).remoteInvoked
          = false ∧
      (handle_call_tool "generate-image" (some arguments) images fs env).images
          = images) ∧
    (∀ arguments : ArgDict,
      dGet arguments "image_url" = some "" ∨ dGet arguments "prompt" = some "" →
      (handle_call_tool "save-image" (some arguments) images fs env).result
          = .error "Missing image_url or prompt" ∧
      (handle_call_tool "save-image" (some arguments) images fs env).images
          = images ∧
      (handle_call_tool "save-image" (some arguments) images fs env).downloadAttempted
          = false ∧
      (handle_call_tool "save-image" (some arguments) images fs env).writeAttempt
          = none) ∧
    (∀ name, name = "generate-image" ∨ name = "save-image" →
      (handle_call_tool name none images fs env).result = .error "Missing arguments" ∧
      (handle_call_tool name none images fs env).images = images ∧
      (handle_call_tool name none images fs env).remoteInvoked = false ∧
      (handle_call_tool name none images fs env).downloadAttempted = false) := by
  refine ⟨?_, ?_, ?_⟩
  · intro arguments h
    have hargs : pyFalsyDict (some arguments) = false :=
      dGet_some_not_isEmpty arguments "prompt" "" h
    have hp : pyFalsy (dGet arguments "prompt") = true := by rw [h]; rfl
    rw [handle_call_tool_generate]
    refine ⟨?_, ?_, ?_⟩ <;> simp [generateImage, hargs, hp]
  · intro arguments h
    have hargs : pyFalsyDict (some arguments) = false := by
      rcases h with h | h
      · exact dGet_some_not_isEmpty arguments "image_url" "" h
      · exact dGet_some_not_isEmpty arguments "prompt" "" h
    have he : pyFalsy (some "") = true := by decide
    have hor : (pyFalsy (dGet arguments "image_url")
        || pyFalsy (dGet arguments "prompt")) = true := by
      rcases h with h | h
      · rw [h, he, Bool.true_or]
      · rw [h, he, Bool.or_true]
    rw [handle_call_tool_save]
    refine ⟨?_, ?_, ?_, ?_⟩ <;> simp [saveImage, hargs, hor]
  · intro name h
    rcases h with h | h <;> subst h
    · rw [handle_call_tool_generate]
      exact ⟨rfl, rfl, rfl, rfl⟩
    · rw [handle_call_tool_save]
      exact ⟨rfl, rfl, rfl, rfl⟩

/-- Witness for C10 at concrete empty-string and absent-arguments calls. -/
theorem empty_string_arguments_rejected_witness :
    (handle_call_tool "generate-image" (some [("prompt", "")]) []
        [] ⟨.output ["u"], "id0", "t0", true, .raise "x", none⟩).remoteInvoked
        = false ∧
    (handle_call_tool "save-image" (some [("image_url", ""), ("prompt", "p")]) []
        [] ⟨.output ["u"], "id0", "t0", true, .raise "x", none⟩).images = [] ∧
    (handle_call_tool "save-image" none []
        [] ⟨.output ["u"], "id0", "t0", true, .raise "x", none⟩).result
        = .error "Missing arguments" := by
  refine ⟨((empty_string_arguments_rejected [] []
      ⟨.output ["u"], "id0", "t0", true, .raise "x", none⟩).1
      [("prompt", "")] (by decide)).2.1,
    ((empty_string_arguments_rejected [] []
      ⟨.output ["u"], "id0", "t0", true, .raise "x", none⟩).2.1
      [("image_url", ""), ("prompt", "p")] (.inl (by decide))).2.1,
    ((empty_string_arguments_rejected [] []
      ⟨.output ["u"], "id0", "t0", true, .raise "x", none⟩).2.2
      "save-image" (.inr rfl)).1⟩

end ImageGen
